import Mathlib

/-!
Shallow embedding of the repository: the synthetic photovoltaic data
generator of src/app_v1.py and the cleaning / filtering / KPI pipeline of
src/streamlit_app.py, with theorems settling the specification claims.
-/

/-! Part 1: the synthetic generator of src/app_v1.py (`simular_datos_pv`).
The Gaussian draws `np.random.normal(0, 5, 72)` and `np.random.normal(0, 20, 72)`
are modelled as universally quantified functions `noise1 noise2 : ℕ → ℝ`
("for every run" = for all noise values). Hour index `h` ranges over `0..71`
(`horas_dia = np.arange(0, 72)`), mirroring `pd.date_range(periods=72, freq='h')`. -/

/-- Embeds `ciclo_solar_base = np.sin(np.pi * (horas_dia % 24) / 24) ** 2`. -/
noncomputable def ciclo_solar_base (h : ℕ) : ℝ :=
  Real.sin (Real.pi * ((h % 24 : ℕ) : ℝ) / 24) ^ 2

/-- Embeds `irradiancia_base = np.maximum(0, ciclo_solar_base * 1000 + np.random.normal(0, 5, 72))`. -/
noncomputable def irradiancia_base (noise1 : ℕ → ℝ) (h : ℕ) : ℝ :=
  max 0 (ciclo_solar_base h * 1000 + noise1 h)

/-- Embeds `irradiancia_dia1 = irradiancia_base`. -/
noncomputable def irradiancia_dia1 (noise1 : ℕ → ℝ) (h : ℕ) : ℝ :=
  irradiancia_base noise1 h

/-- Embeds `potencia_dia1 = irradiancia_dia1 * 0.15`. -/
noncomputable def potencia_dia1 (noise1 : ℕ → ℝ) (h : ℕ) : ℝ :=
  irradiancia_dia1 noise1 h * 0.15

/-- Embeds `irradiancia_dia2 = np.maximum(0, irradiancia_base * 0.4 + np.random.normal(0, 20, 72))`. -/
noncomputable def irradiancia_dia2 (noise1 noise2 : ℕ → ℝ) (h : ℕ) : ℝ :=
  max 0 (irradiancia_base noise1 h * 0.4 + noise2 h)

/-- Embeds `potencia_dia2 = irradiancia_dia2 * 0.15`. -/
noncomputable def potencia_dia2 (noise1 noise2 : ℕ → ℝ) (h : ℕ) : ℝ :=
  irradiancia_dia2 noise1 noise2 h * 0.15

/-- Embeds `irradiancia_dia3 = irradiancia_base`. -/
noncomputable def irradiancia_dia3 (noise1 : ℕ → ℝ) (h : ℕ) : ℝ :=
  irradiancia_base noise1 h

/-- Embeds `potencia_dia3 = irradiancia_dia3 * 0.15` followed by the two
in-place updates `potencia_dia3[24+11] *= 0.3` and `potencia_dia3[24+14] *= 0.4`. -/
noncomputable def potencia_dia3 (noise1 : ℕ → ℝ) (h : ℕ) : ℝ :=
  if h = 24 + 11 then irradiancia_dia3 noise1 h * 0.15 * 0.3
  else if h = 24 + 14 then irradiancia_dia3 noise1 h * 0.15 * 0.4
  else irradiancia_dia3 noise1 h * 0.15

/-- One row of the long-format output table: the timestamp is kept as its
hour offset from the start `2025-07-01 00:00` of `pd.date_range`. -/
structure Fila where
  timestamp : ℕ
  irradiancia : ℝ
  potencia : ℝ
  dia : String

/-- Embeds the construction of one day-labelled sub-table `df_d1`/`df_d2`/`df_d3`:
all 72 timestamps paired with that day variant's irradiance and power columns. -/
noncomputable def tabla_dia (dia : String) (irr pot : ℕ → ℝ) : List Fila :=
  (List.range 72).map (fun h => { timestamp := h, irradiancia := irr h, potencia := pot h, dia := dia })

/-- Embeds `simular_datos_pv`: `pd.concat([df_d1, df_d2, df_d3])`. -/
noncomputable def simular_datos_pv (noise1 noise2 : ℕ → ℝ) : List Fila :=
  tabla_dia "Día 1 (Soleado)" (irradiancia_dia1 noise1) (potencia_dia1 noise1)
    ++ tabla_dia "Día 2 (Nublado)" (irradiancia_dia2 noise1 noise2) (potencia_dia2 noise1 noise2)
    ++ tabla_dia "Día 3 (Parcial)" (irradiancia_dia3 noise1) (potencia_dia3 noise1)

theorem irradiancia_dia1_nonneg (noise1 : ℕ → ℝ) (h : ℕ) :
    0 ≤ irradiancia_dia1 noise1 h :=
  le_max_left 0 _

theorem irradiancia_dia2_nonneg (noise1 noise2 : ℕ → ℝ) (h : ℕ) :
    0 ≤ irradiancia_dia2 noise1 noise2 h :=
  le_max_left 0 _

/-- C1: for every run of the generator (all Gaussian noise values drawn), the
output table has exactly 216 rows — each of the three day-labelled sub-tables
has 72 hourly samples — and every row's irradiance value is nonnegative: the
`max(0, ...)` clamp is never violated. -/
theorem C1_generador_216_filas_irradiancia_nonneg (noise1 noise2 : ℕ → ℝ) :
    (simular_datos_pv noise1 noise2).length = 216 ∧
    (tabla_dia "Día 1 (Soleado)" (irradiancia_dia1 noise1) (potencia_dia1 noise1)).length = 72 ∧
    (tabla_dia "Día 2 (Nublado)" (irradiancia_dia2 noise1 noise2) (potencia_dia2 noise1 noise2)).length = 72 ∧
    (tabla_dia "Día 3 (Parcial)" (irradiancia_dia3 noise1) (potencia_dia3 noise1)).length = 72 ∧
    ∀ fila ∈ simular_datos_pv noise1 noise2, 0 ≤ fila.irradiancia := by
  refine ⟨by simp [simular_datos_pv, tabla_dia], by simp [tabla_dia], by simp [tabla_dia],
    by simp [tabla_dia], ?_⟩
  intro fila hfila
  simp only [simular_datos_pv, tabla_dia, List.mem_append, List.mem_map, List.mem_range] at hfila
  rcases hfila with (⟨h, -, rfl⟩ | ⟨h, -, rfl⟩) | ⟨h, -, rfl⟩
  · exact irradiancia_dia1_nonneg noise1 h
  · exact irradiancia_dia2_nonneg noise1 noise2 h
  · exact irradiancia_dia1_nonneg noise1 h

/-- C2: for every run, every Day 1 row has `potencia = irradiancia * 0.15`
exactly, and so does every Day 3 row except the two clipping samples at array
indices `24+11 = 35` and `24+14 = 38` — day-relative hours `35 % 24 = 11` and
`38 % 24 = 14` (clock times ~11:00 and ~14:00) — whose power equals the
unclipped value `irradiancia * 0.15` times `0.3` resp. `0.4`, while Day 3's
irradiance column itself is the unchanged base curve of Day 1. -/
theorem C2_potencia_dia1_dia3 (noise1 : ℕ → ℝ) (h : Fin 72) :
    potencia_dia1 noise1 h = irradiancia_dia1 noise1 h * 0.15 ∧
    (h.val ≠ 35 → h.val ≠ 38 →
      potencia_dia3 noise1 h = irradiancia_dia3 noise1 h * 0.15) ∧
    potencia_dia3 noise1 35 = irradiancia_dia3 noise1 35 * 0.15 * 0.3 ∧
    potencia_dia3 noise1 38 = irradiancia_dia3 noise1 38 * 0.15 * 0.4 ∧
    irradiancia_dia3 noise1 h = irradiancia_dia1 noise1 h ∧
    35 % 24 = 11 ∧ 38 % 24 = 14 := by
  refine ⟨rfl, ?_, ?_, ?_, rfl, rfl, rfl⟩
  · intro h35 h38
    simp only [potencia_dia3, if_neg (by omega : ¬ h.val = 24 + 11),
      if_neg (by omega : ¬ h.val = 24 + 14)]
  · simp [potencia_dia3]
  · simp [potencia_dia3]

theorem C2_potencia_dia1_dia3_witness :
    potencia_dia1 (fun _ => 0) (⟨0, by decide⟩ : Fin 72)
        = irradiancia_dia1 (fun _ => 0) (⟨0, by decide⟩ : Fin 72).val * 0.15 ∧
    potencia_dia3 (fun _ => 0) (⟨0, by decide⟩ : Fin 72)
        = irradiancia_dia3 (fun _ => 0) (⟨0, by decide⟩ : Fin 72).val * 0.15 := by
  have h := C2_potencia_dia1_dia3 (fun _ => 0) ⟨0, by decide⟩
  exact ⟨h.1, h.2.1 (by decide) (by decide)⟩

/-! Part 2: the cleaning / filtering / KPI pipeline of src/streamlit_app.py.
Timestamps are modelled as a calendar date (an integer day ordinal, the value
of `.dt.date`) plus minutes within the day; `pd.to_datetime(..., errors="coerce")`
turns each raw `Timestamp` string into either a parsed instant or `NaT`, which
is modelled as an `Option Marca` field on the raw row. Power and irradiance
values are exact rationals. -/

/-- Parsed timestamp instant: calendar date ordinal (`.dt.date`) and minutes
within the day. -/
structure Marca where
  fecha : Int
  minutos : Nat
deriving DecidableEq

/-- One raw CSV row of `datos_pv.csv` as read by `pd.read_csv`; `timestamp` is
the result of `pd.to_datetime(df["Timestamp"], errors="coerce")` — `none`
models `NaT`, a malformed timestamp string. -/
structure FilaCruda where
  timestamp : Option Marca
  nombre_inversor : String
  potencia_ac_kw : ℚ
  irradiancia_ghi_w_m2 : ℚ
deriving DecidableEq

/-- One cleaned row after `cargar_datos`: the timestamp parsed, plus the
derived `Fecha` column `df["Timestamp"].dt.date`. -/
structure Registro where
  timestamp : Marca
  nombre_inversor : String
  potencia_ac_kw : ℚ
  irradiancia_ghi_w_m2 : ℚ
  fecha : Int
deriving DecidableEq

/-- Embeds `cargar_datos`: coerce timestamps, `dropna(subset=["Timestamp"])`
(rows whose timestamp failed to parse are dropped entirely), then derive the
`Fecha` column from the parsed timestamp. -/
def cargar_datos (crudo : List FilaCruda) : List Registro :=
  crudo.filterMap (fun r =>
    r.timestamp.map (fun t =>
      { timestamp := t
        nombre_inversor := r.nombre_inversor
        potencia_ac_kw := r.potencia_ac_kw
        irradiancia_ghi_w_m2 := r.irradiancia_ghi_w_m2
        fecha := t.fecha }))

/-- Row predicate of the filtering step: `df["Nombre_Inversor"].isin(inversores_seleccionados)
& (df["Fecha"] >= fecha_inicio) & (df["Fecha"] <= fecha_fin)`. -/
def filtro (inversores : List String) (fecha_inicio fecha_fin : Int) (r : Registro) : Bool :=
  decide (r.nombre_inversor ∈ inversores) &&
    decide (fecha_inicio ≤ r.fecha) && decide (r.fecha ≤ fecha_fin)

/-- Embeds `df_filtrado = df[isin & (Fecha >= inicio) & (Fecha <= fin)]`. -/
def df_filtrado (df : List Registro) (inversores : List String)
    (fecha_inicio fecha_fin : Int) : List Registro :=
  df.filter (filtro inversores fecha_inicio fecha_fin)

/-- Embeds `energia_total_kwh = df_filtrado["Potencia_AC_kW"].sum() * 0.25`. -/
def energia_total_kwh (df : List Registro) : ℚ :=
  (df.map (fun r => r.potencia_ac_kw)).sum * 0.25

/-- Maximum of a list of rationals, as pandas `.max()`: `none` on an empty
series (pandas would give `NaN`; the pipeline only evaluates it after the
empty-table short circuit). -/
def maximo : List ℚ → Option ℚ
  | [] => none
  | x :: xs => some (xs.foldl max x)

/-- Embeds `potencia_pico_sistema_kwp = 50 * len(inversores_seleccionados)`. -/
def potencia_pico_sistema_kwp (inversores : List String) : ℚ :=
  50 * inversores.length

/-- Embeds `hsp = energia_total_kwh / potencia_pico_sistema_kwp`. -/
def hsp (df : List Registro) (inversores : List String) : ℚ :=
  energia_total_kwh df / potencia_pico_sistema_kwp inversores

/-- Terminal outcomes of one run of the script after the sidebar widgets:
`errorRangoFechas` is the `st.sidebar.error(...)` + `st.stop()` branch on a
bad date range, `sinDatos` is the `st.warning("No hay datos...")` + `st.stop()`
branch on an empty filtered table, and `ok` carries the four KPI values
(total energy, peak AC power, max irradiance, peak sun hours). -/
inductive Resultado where
  | errorRangoFechas : Resultado
  | sinDatos : Resultado
  | ok : ℚ → ℚ → ℚ → ℚ → Resultado
deriving DecidableEq

/-- Embeds the main control flow of the script: the tuple unpacking
`fecha_inicio, fecha_fin = fechas_seleccionadas` (a `ValueError` unless the
date widget returned exactly two dates, caught and turned into `st.stop()`),
then the filtering step, then the `df_filtrado.empty` short circuit, and only
then the four KPI computations. -/
def pipeline (df : List Registro) (inversores : List String)
    (fechas_seleccionadas : List Int) : Resultado :=
  match fechas_seleccionadas with
  | [fecha_inicio, fecha_fin] =>
    let dff := df_filtrado df inversores fecha_inicio fecha_fin
    if dff.isEmpty then Resultado.sinDatos
    else
      Resultado.ok (energia_total_kwh dff)
        ((maximo (dff.map (fun r => r.potencia_ac_kw))).getD 0)
        ((maximo (dff.map (fun r => r.irradiancia_ghi_w_m2))).getD 0)
        (hsp dff inversores)
  | _ => Resultado.errorRangoFechas

/-- Concrete cleaned row used by witnesses: an `Inversor-A` reading with the
given AC power. -/
def registro_ejemplo (p : ℚ) : Registro :=
  { timestamp := { fecha := 0, minutos := 0 }
    nombre_inversor := "Inversor-A"
    potencia_ac_kw := p
    irradiancia_ghi_w_m2 := 0
    fecha := 0 }

/-- C3: for every filtered table the total-energy KPI is the sum of the
`Potencia_AC_kW` values times the fixed sampling interval `0.25` hours, and on
a two-row table with powers 10 kW and 20 kW it evaluates to `(10+20)*0.25 = 7.5`. -/
theorem C3_energia_total (df : List Registro) (r1 r2 : Registro)
    (h1 : r1.potencia_ac_kw = 10) (h2 : r2.potencia_ac_kw = 20) :
    energia_total_kwh df = (df.map (fun r => r.potencia_ac_kw)).sum * 0.25 ∧
    energia_total_kwh [r1, r2] = 7.5 := by
  refine ⟨rfl, ?_⟩
  simp [energia_total_kwh, h1, h2]
  norm_num

theorem C3_energia_total_witness :
    energia_total_kwh [registro_ejemplo 10, registro_ejemplo 20] = 7.5 :=
  (C3_energia_total [] (registro_ejemplo 10) (registro_ejemplo 20) rfl rfl).2

/-- C4: for every nonempty table and nonempty inverter selection, the
peak-sun-hours KPI equals the total energy divided by `50` times the number of
selected inverters, and with the same table a two-inverter selection yields
exactly half the value of a one-inverter selection. -/
theorem C4_hsp_inverso (df : List Registro) (inversores : List String)
    (hdf : df ≠ []) (hinv : inversores ≠ []) :
    hsp df inversores = energia_total_kwh df / (50 * inversores.length) ∧
    ∀ inv1 inv2 : List String, inv1.length = 1 → inv2.length = 2 →
      hsp df inv2 = hsp df inv1 / 2 := by
  refine ⟨rfl, ?_⟩
  intro inv1 inv2 hl1 hl2
  unfold hsp potencia_pico_sistema_kwp
  rw [hl1, hl2, div_div]
  norm_num

theorem C4_hsp_inverso_witness :
    hsp [registro_ejemplo 10] ["Inversor-A", "Inversor-B"]
      = hsp [registro_ejemplo 10] ["Inversor-A"] / 2 :=
  (C4_hsp_inverso [registro_ejemplo 10] ["Inversor-A"] (by simp) (by simp)).2
    ["Inversor-A"] ["Inversor-A", "Inversor-B"] rfl rfl

/-- C5: the filtering step keeps exactly the rows whose inverter name is in
the selected set and whose calendar date lies in the inclusive range
`[fecha_inicio, fecha_fin]`; the result is a sublist of the input, so no kept
row is modified and no other row appears. -/
theorem C5_filtrado_caracterizacion (df : List Registro) (inversores : List String)
    (fecha_inicio fecha_fin : Int) :
    (df_filtrado df inversores fecha_inicio fecha_fin).Sublist df ∧
    ∀ r : Registro, r ∈ df_filtrado df inversores fecha_inicio fecha_fin ↔
      (r ∈ df ∧ r.nombre_inversor ∈ inversores ∧
        fecha_inicio ≤ r.fecha ∧ r.fecha ≤ fecha_fin) := by
  refine ⟨List.filter_sublist df, ?_⟩
  intro r
  simp [df_filtrado, filtro, List.mem_filter, and_assoc]

/-- C6: filtering is idempotent — applying the filter with the same criteria
to an already-filtered table returns the identical table. -/
theorem C6_filtrado_idempotente (df : List Registro) (inversores : List String)
    (fecha_inicio fecha_fin : Int) :
    df_filtrado (df_filtrado df inversores fecha_inicio fecha_fin)
        inversores fecha_inicio fecha_fin
      = df_filtrado df inversores fecha_inicio fecha_fin := by
  simp [df_filtrado, List.filter_filter, Bool.and_self]

/-- C7: with `N` raw rows whose timestamp parses and `M` whose timestamp
fails to parse, cleaning outputs exactly `N` rows; every output row carries
the fields of some parseable raw row together with the date derived from its
parsed timestamp (so no malformed row's fields leak through), and every
parseable raw row does appear in the output. -/
theorem C7_limpieza (crudo : List FilaCruda) :
    (cargar_datos crudo).length = crudo.countP (fun r => r.timestamp.isSome) ∧
    (∀ fila ∈ cargar_datos crudo, ∃ r ∈ crudo,
      r.timestamp = some fila.timestamp ∧
      fila.nombre_inversor = r.nombre_inversor ∧
      fila.potencia_ac_kw = r.potencia_ac_kw ∧
      fila.irradiancia_ghi_w_m2 = r.irradiancia_ghi_w_m2 ∧
      fila.fecha = fila.timestamp.fecha) ∧
    ∀ r ∈ crudo, ∀ t : Marca, r.timestamp = some t →
      ({ timestamp := t
         nombre_inversor := r.nombre_inversor
         potencia_ac_kw := r.potencia_ac_kw
         irradiancia_ghi_w_m2 := r.irradiancia_ghi_w_m2
         fecha := t.fecha } : Registro) ∈ cargar_datos crudo := by
  refine ⟨?_, ?_, ?_⟩
  · induction crudo with
    | nil => rfl
    | cons r resto ih =>
      cases hr : r.timestamp <;>
        simp [cargar_datos, List.filterMap_cons, hr, List.countP_cons] <;>
        simpa [cargar_datos] using ih
  · intro fila hfila
    simp only [cargar_datos, List.mem_filterMap, Option.map_eq_some'] at hfila
    obtain ⟨r, hrmem, t, ht, rfl⟩ := hfila
    exact ⟨r, hrmem, by simp [ht]⟩
  · intro r hrmem t ht
    simp only [cargar_datos, List.mem_filterMap]
    exact ⟨r, hrmem, by simp [ht]⟩

/-- Concrete raw row with a parseable timestamp, used by witnesses. -/
def fila_cruda_valida : FilaCruda :=
  { timestamp := some { fecha := 20270, minutos := 480 }
    nombre_inversor := "Inversor-A"
    potencia_ac_kw := 12
    irradiancia_ghi_w_m2 := 800 }

/-- Concrete raw row whose timestamp failed to parse (pandas `NaT`), used by
witnesses. -/
def fila_cruda_malformada : FilaCruda :=
  { timestamp := none
    nombre_inversor := "Inversor-B"
    potencia_ac_kw := 7
    irradiancia_ghi_w_m2 := 300 }

theorem C7_limpieza_witness :
    (cargar_datos [fila_cruda_valida, fila_cruda_malformada]).length = 1 ∧
    ({ timestamp := { fecha := 20270, minutos := 480 }
       nombre_inversor := "Inversor-A"
       potencia_ac_kw := 12
       irradiancia_ghi_w_m2 := 800
       fecha := 20270 } : Registro) ∈ cargar_datos [fila_cruda_valida, fila_cruda_malformada] := by
  have h := C7_limpieza [fila_cruda_valida, fila_cruda_malformada]
  exact ⟨h.1.trans (by rfl), h.2.2 fila_cruda_valida (by simp) { fecha := 20270, minutos := 480 } rfl⟩

/-- C8: whenever the filtered table is empty, the pipeline stops with the
distinct "no data" outcome before any KPI arithmetic: its result is
`Resultado.sinDatos` and is never an `ok` carrying KPI values. -/
theorem C8_sin_datos (df : List Registro) (inversores : List String)
    (fecha_inicio fecha_fin : Int)
    (h : df_filtrado df inversores fecha_inicio fecha_fin = []) :
    pipeline df inversores [fecha_inicio, fecha_fin] = Resultado.sinDatos ∧
    ∀ e p i q : ℚ,
      pipeline df inversores [fecha_inicio, fecha_fin] ≠ Resultado.ok e p i q := by
  have hp : pipeline df inversores [fecha_inicio, fecha_fin] = Resultado.sinDatos := by
    simp [pipeline, h]
  exact ⟨hp, fun e p i q hc => by simp [hp] at hc⟩

theorem C8_sin_datos_witness :
    pipeline [] [] [0, 0] = Resultado.sinDatos :=
  (C8_sin_datos [] [] 0 0 rfl).1

/-- C9: a date-range selection that is not exactly a start date and an end
date (the tuple unpacking raises `ValueError`) makes the pipeline halt with
the user-input error outcome before filtering and KPI computation. -/
theorem C9_rango_invalido (df : List Registro) (inversores : List String)
    (fechas : List Int) (h : fechas.length ≠ 2) :
    pipeline df inversores fechas = Resultado.errorRangoFechas := by
  match fechas with
  | [] => rfl
  | [a] => rfl
  | [a, b] => exact absurd rfl h
  | a :: b :: c :: resto => rfl

theorem C9_rango_invalido_witness :
    pipeline [] [] [0] = Resultado.errorRangoFechas :=
  C9_rango_invalido [] [] [0] (by decide)

/-- C10: the peak-sun-hours division can never divide by zero — a nonempty
filtered table forces the inverter selection to be nonempty, so the
denominator `50 * len(inversores_seleccionados)` is nonzero and at least 50. -/
theorem C10_hsp_denominador (df : List Registro) (inversores : List String)
    (fecha_inicio fecha_fin : Int)
    (h : df_filtrado df inversores fecha_inicio fecha_fin ≠ []) :
    inversores ≠ [] ∧
    potencia_pico_sistema_kwp inversores ≠ 0 ∧
    (50 : ℚ) ≤ potencia_pico_sistema_kwp inversores := by
  obtain ⟨r, hr⟩ := List.exists_mem_of_ne_nil _ h
  have hmem : r.nombre_inversor ∈ inversores := by
    have hfil := (List.mem_filter.1 hr).2
    simp only [filtro, Bool.and_eq_true, decide_eq_true_eq] at hfil
    exact hfil.1.1
  have hinv : inversores ≠ [] := List.ne_nil_of_mem hmem
  have hlen : (1 : ℚ) ≤ (inversores.length : ℚ) := by
    exact_mod_cast List.length_pos.2 hinv
  have h50 : (50 : ℚ) ≤ potencia_pico_sistema_kwp inversores := by
    unfold potencia_pico_sistema_kwp
    nlinarith
  exact ⟨hinv, (lt_of_lt_of_le (by norm_num) h50).ne', h50⟩

theorem C10_hsp_denominador_witness :
    ["Inversor-A"] ≠ ([] : List String) ∧
    potencia_pico_sistema_kwp ["Inversor-A"] ≠ 0 ∧
    (50 : ℚ) ≤ potencia_pico_sistema_kwp ["Inversor-A"] :=
  C10_hsp_denominador [registro_ejemplo 10] ["Inversor-A"] 0 0 (by decide)
